import Mathlib

/-!
# Verification of the Route Optimization Engine
Shallow embedding of `src/dog_walker/tools/route_optimizer.py`.

Python floats are modelled over `ℚ` where the code only does field
arithmetic, and over `ℝ` where the haversine formula needs transcendental
functions.  Python `int(x)` truncates toward zero; Python `round(x, n)`
rounds half to even at `n` decimal digits.  The remote OpenRouteService
call and the OR-Tools solver are external to the repository and are
modelled as explicit oracles passed to the engine (the solver oracle
returns the chain of visited node indices that the extraction loop walks,
or `none` when `SolveWithParameters` returns no solution).
-/

namespace DogWalker

/-- Python `int(x)` on a rational: truncation toward zero. -/
def pyIntQ (x : ℚ) : ℤ := if 0 ≤ x then ⌊x⌋ else ⌈x⌉

/-- Python `int(x)` on a real: truncation toward zero. -/
noncomputable def pyIntR (x : ℝ) : ℤ := if 0 ≤ x then ⌊x⌋ else ⌈x⌉

/-- Python `round` to an integer: round half to even (banker's rounding). -/
def pyRoundHalfEven (x : ℚ) : ℤ :=
  let f : ℤ := ⌊x⌋
  let r : ℚ := x - f
  if r < 1/2 then f
  else if 1/2 < r then f + 1
  else if f % 2 = 0 then f else f + 1

/-- Python `round(x, ndigits)`. -/
def pyRound (x : ℚ) (ndigits : ℕ) : ℚ :=
  (pyRoundHalfEven (x * 10 ^ ndigits) : ℚ) / 10 ^ ndigits

/-- One entry of the `visits` array of the input JSON (route_optimizer.py
lines 100-102): every field is optional, with the defaults applied at
lines 115-123. -/
structure Visit where
  pet_name : Option String := none
  address : Option String := none
  coordinates : Option (ℚ × ℚ) := none
  duration : Option ℤ := none
  time_window : Option (List ℚ) := none
deriving DecidableEq

/-- The legacy flat input shape (route_optimizer.py lines 124-134):
`coordinates` is fetched with `data["coordinates"]` (a `KeyError` when
absent), the other three with `.get` defaults. -/
structure LegacyFields where
  coordinates : Option (List (ℚ × ℚ)) := none
  time_windows : Option (List (List ℚ)) := none
  durations : Option (List ℤ) := none
  addresses : Option (List String) := none
deriving DecidableEq

/-- The `route_data` argument after `json.loads`: either the parse raised
(`malformed`, carrying `str(e)`), or the object contains a `"visits"` key,
or it is treated as the legacy shape. -/
inductive RouteData where
  | malformed (msg : String)
  | visitsFmt (visits : List Visit)
  | legacyFmt (fields : LegacyFields)
deriving DecidableEq

/-- The five parallel per-stop lists built at route_optimizer.py
lines 113-134. -/
structure Stops where
  coordinates : List (ℚ × ℚ)
  durations : List ℤ
  time_windows : List (List ℚ)
  pet_names : List String
  addresses : List String
deriving DecidableEq

/-- Python format string for the default pet name. -/
def defaultPetName (i : ℕ) : String := "Pet " ++ toString (i + 1)

/-- Enumerate-style naming: `[v.get("pet_name", f"Pet {i + 1}") ...]`. -/
def petNamesFrom : ℕ → List Visit → List String
  | _, [] => []
  | i, v :: vs => v.pet_name.getD (defaultPetName i) :: petNamesFrom (i + 1) vs

/-- route_optimizer.py lines 109-134: unpack the input into the five
parallel lists, propagating the exceptions the code can raise here
(`json.JSONDecodeError` for unparsable input, `KeyError('coordinates')`
for a legacy object without coordinates). -/
def parseStops : RouteData → Except String Stops
  | .malformed msg => .error msg
  | .visitsFmt visits => .ok
      { coordinates := visits.map (fun v => v.coordinates.getD (0, 0))
        durations := visits.map (fun v => v.duration.getD 30)
        time_windows := visits.map (fun v => v.time_window.getD [])
        pet_names := petNamesFrom 0 visits
        addresses := visits.map (fun v => v.address.getD "Unknown") }
  | .legacyFmt f =>
    match f.coordinates with
    | none => .error "'coordinates'"
    | some coords => .ok
        { coordinates := coords
          durations := f.durations.getD (List.replicate coords.length 30)
          time_windows := f.time_windows.getD []
          pet_names := (List.range coords.length).map defaultPetName
          addresses := f.addresses.getD (List.replicate coords.length "Unknown") }

/-- Conversion of degrees to radians, `math.radians`. -/
noncomputable def radians (deg : ℚ) : ℝ := (deg : ℝ) * Real.pi / 180

/-- route_optimizer.py lines 10-26, `calculate_distance`: haversine
distance in kilometers between two `(lat, lon)` pairs. -/
noncomputable def calculate_distance (coord1 coord2 : ℚ × ℚ) : ℝ :=
  let lat1 := radians coord1.1
  let lon1 := radians coord1.2
  let lat2 := radians coord2.1
  let lon2 := radians coord2.2
  let dlat := lat2 - lat1
  let dlon := lon2 - lon1
  let a := Real.sin (dlat / 2) ^ 2
      + Real.cos lat1 * Real.cos lat2 * Real.sin (dlon / 2) ^ 2
  let c := 2 * Real.arcsin (Real.sqrt a)
  6371 * c

/-- route_optimizer.py lines 78-92: the haversine fallback matrix.  The
code zero-initialises an n×n matrix and fills every `i ≠ j` entry with
`int(calculate_distance(...) * 1000)`. -/
noncomputable def haversineMatrix (coordinates : List (ℚ × ℚ)) : List (List ℤ) :=
  let n := coordinates.length
  (List.range n).map (fun i =>
    (List.range n).map (fun j =>
      if i = j then 0
      else pyIntR (calculate_distance (coordinates.getD i (0, 0))
          (coordinates.getD j (0, 0)) * 1000)))

/-- Outcome of the one `requests.post` call to OpenRouteService, as seen
by the `try` block at lines 56-72: either a successful response whose
`data["distances"]` rows have already been truncated to integers, or any
raised exception (network error, non-2xx from `raise_for_status`,
malformed payload, timeout), carrying `str(e)`. -/
inductive RemoteOutcome where
  | ok (matrix : List (List ℤ))
  | err (msg : String)
deriving DecidableEq

/-- route_optimizer.py lines 29-92, `get_walking_distance_matrix`.
`apiKeyPresent` is the truthiness of `OPENROUTESERVICE_API_KEY`; the
`raise ValueError(...)` at line 40 happens before the `try` block, so it
propagates to the caller.  Any exception inside the `try` is caught and
answered with the haversine fallback matrix. -/
noncomputable def get_walking_distance_matrix (apiKeyPresent : Bool)
    (remote : RemoteOutcome) (coordinates : List (ℚ × ℚ)) :
    Except String (List (List ℤ)) :=
  if !apiKeyPresent then
    .error "OpenRouteService API key not found in environment variables"
  else
    match remote with
    | .ok m => .ok m
    | .err _ => .ok (haversineMatrix coordinates)

/-- The `"Time"` dimension added at route_optimizer.py lines 154-170:
slack and horizon in seconds, plus the list of `SetRange` bounds
`(node index, start seconds, end seconds)`. -/
structure TimeDim where
  slack : ℤ
  horizon : ℤ
  bounds : List (ℕ × ℤ × ℤ)
deriving DecidableEq

/-- Everything handed to the OR-Tools solve: node count, the cost matrix
behind the registered transit callback, and the optional time dimension. -/
structure SolveModel where
  numLocations : ℕ
  matrix : List (List ℤ)
  timeDimension : Option TimeDim
deriving DecidableEq

/-- The loop at lines 163-170: `enumerate(time_windows)`, keeping only
windows of length exactly 2 and converting hours to seconds with
`int(hour * 60 * 60)`. -/
def windowBounds : ℕ → List (List ℚ) → List (ℕ × ℤ × ℤ)
  | _, [] => []
  | i, w :: ws =>
    (match w with
     | [s, e] => [(i, pyIntQ (s * 60 * 60), pyIntQ (e * 60 * 60))]
     | _ => []) ++ windowBounds (i + 1) ws

/-- route_optimizer.py lines 139-170: the routing model.  The time
dimension is added under `if time_windows:`, i.e. exactly when the
`time_windows` list is non-empty, with 30·60 seconds of slack and a
12·60·60 second horizon. -/
def buildSolveModel (stops : Stops) (matrix : List (List ℤ)) : SolveModel :=
  { numLocations := stops.coordinates.length
    matrix := matrix
    timeDimension :=
      if stops.time_windows.isEmpty then none
      else some
        { slack := 30 * 60
          horizon := 12 * 60 * 60
          bounds := windowBounds 0 stops.time_windows } }

/-- Entry access `distance_matrix[i][j]` (in-range in every reachable use). -/
def matrixEntry (matrix : List (List ℤ)) (i j : ℕ) : ℤ :=
  (matrix.getD i []).getD j 0

/-- Sum of `matrix[t k][t (k+1)]` over consecutive pairs of a node list:
the accumulation `total_distance += routing.GetArcCostForVehicle(...)`
of the extraction loop at lines 186-191. -/
def tourCost (matrix : List (List ℤ)) : List ℕ → ℤ
  | a :: b :: rest => matrixEntry matrix a b + tourCost matrix (b :: rest)
  | _ => 0

/-- One record of `visit_details` (lines 205-213). -/
structure VisitDetail where
  pet_name : String
  address : String
  duration_minutes : ℤ
deriving DecidableEq

/-- One record of `locations_for_map` (lines 216-226). -/
structure MapLocation where
  latitude : ℚ
  longitude : ℚ
  pet_name : String
  address : String
  duration : ℤ
deriving DecidableEq

/-- The successful JSON payload (lines 228-239). -/
structure RouteResult where
  optimized_sequence : List ℕ
  visit_order : List VisitDetail
  locations_for_map : List MapLocation
  total_distance_meters : ℤ
  estimated_time_hours : ℚ
  walking_time_minutes : ℚ
  visit_time_minutes : ℤ
  uses_real_streets : Bool
deriving DecidableEq

/-- The expression `addresses[idx] if addresses[idx] != "Unknown" else ""`
(lines 208-210 and 221-223). -/
def displayAddress (a : String) : String := if a = "Unknown" then "" else a

/-- The float literal `83.33` (5 km/h ≈ 83.33 m/min, line 196-197). -/
def walkingSpeed : ℚ := 8333 / 100

/-- The `visit_details` record built for node `idx` (lines 205-213). -/
def visitDetailAt (stops : Stops) (idx : ℕ) : VisitDetail :=
  { pet_name := stops.pet_names.getD idx ""
    address := displayAddress (stops.addresses.getD idx "")
    duration_minutes := stops.durations.getD idx 0 }

/-- The `locations_for_map` record built for node `idx` (lines 216-226). -/
def mapLocationAt (stops : Stops) (idx : ℕ) : MapLocation :=
  { latitude := (stops.coordinates.getD idx (0, 0)).1
    longitude := (stops.coordinates.getD idx (0, 0)).2
    pet_name := stops.pet_names.getD idx ""
    address := displayAddress (stops.addresses.getD idx "")
    duration := stops.durations.getD idx 0 }

/-- route_optimizer.py lines 180-239: result assembly from the solver's
visit chain `visitOrder` (the nodes recorded by the `while not
routing.IsEnd(index)` loop, starting at the depot).  The loop's cost
accumulation includes the final hop to the route end, whose node is the
depot 0, so the total is the cost of `visitOrder ++ [0]`; the emitted
sequence appends `route_sequence[0]` to close the circuit, and the
per-stop records iterate over `route_sequence[:-1]`. -/
def assemble (stops : Stops) (matrix : List (List ℤ)) (visitOrder : List ℕ) :
    RouteResult :=
  let route_sequence := visitOrder ++ [visitOrder.headD 0]
  let total_distance := tourCost matrix (visitOrder ++ [0])
  let walking_time_minutes : ℚ := (total_distance : ℚ) / walkingSpeed
  let total_time_hours : ℚ :=
    (walking_time_minutes + (stops.durations.sum : ℚ)) / 60
  { optimized_sequence := route_sequence
    visit_order := route_sequence.dropLast.map (visitDetailAt stops)
    locations_for_map := route_sequence.dropLast.map (mapLocationAt stops)
    total_distance_meters := total_distance
    estimated_time_hours := pyRound total_time_hours 2
    walking_time_minutes := pyRound walking_time_minutes 1
    visit_time_minutes := stops.durations.sum
    uses_real_streets := true }

/-- The engine's public outcome: the structured success payload, or the
failure message string. -/
inductive EngineOutput where
  | success (result : RouteResult)
  | failure (message : String)
deriving DecidableEq

/-- The OR-Tools solve as an oracle: `none` models
`SolveWithParameters` returning no solution. -/
def Solver := SolveModel → Option (List ℕ)

/-- route_optimizer.py lines 95-244, `optimize_dog_walking_route`: parse,
fetch the distance matrix, build and solve the routing model, assemble.
Any exception escaping the body is caught at line 243 and rendered as
`f"Route optimization failed: {str(e)}"`; a failed solve returns the
literal `"No solution found"`. -/
noncomputable def optimize_dog_walking_route (input : RouteData)
    (apiKeyPresent : Bool) (remote : RemoteOutcome) (solver : Solver) :
    EngineOutput :=
  match parseStops input with
  | .error e => .failure ("Route optimization failed: " ++ e)
  | .ok stops =>
    match get_walking_distance_matrix apiKeyPresent remote stops.coordinates with
    | .error e => .failure ("Route optimization failed: " ++ e)
    | .ok matrix =>
      match solver (buildSolveModel stops matrix) with
      | none => .failure "No solution found"
      | some visitOrder => .success (assemble stops matrix visitOrder)

/-- Projection used to observe the degraded-mode flag of a run. -/
def engineUsesRealStreets : EngineOutput → Option Bool
  | .success r => some r.uses_real_streets
  | .failure _ => none

/-! ## Helper lemmas -/

lemma optimize_eq_success {input : RouteData} {apiKeyPresent : Bool}
    {remote : RemoteOutcome} {solver : Solver} {stops : Stops}
    {matrix : List (List ℤ)} {visitOrder : List ℕ}
    (hp : parseStops input = .ok stops)
    (hm : get_walking_distance_matrix apiKeyPresent remote stops.coordinates
        = .ok matrix)
    (hs : solver (buildSolveModel stops matrix) = some visitOrder) :
    optimize_dog_walking_route input apiKeyPresent remote solver
      = .success (assemble stops matrix visitOrder) := by
  simp only [optimize_dog_walking_route, hp, hm, hs]

lemma headD_eq_of_head? {l : List ℕ} (h : l.head? = some 0) : l.headD 0 = 0 := by
  cases l with
  | nil => simp at h
  | cons a t => simpa using congrArg (fun o => o.getD 0) h

/-! ## Claim theorems -/

/-- C2, counterexample: with the API key absent (the empty-string default
of `OPENROUTESERVICE_API_KEY`), a failing remote call does *not* yield the
haversine fallback matrix — the `ValueError` raised at line 40 surfaces to
the caller, refuting the claim that *any* failure, missing credentials
included, is recovered by the fallback with no exception. -/
theorem C2_counterexample :
    get_walking_distance_matrix false (.err "connection error") [(0, 0)]
      = .error "OpenRouteService API key not found in environment variables"
    ∧ get_walking_distance_matrix false (.err "connection error") [(0, 0)]
      ≠ .ok (haversineMatrix [(0, 0)]) := by
  refine ⟨rfl, ?_⟩
  intro h
  have h' : (Except.error
        "OpenRouteService API key not found in environment variables" :
        Except String (List (List ℤ)))
      = .ok (haversineMatrix [(0, 0)]) := h
  exact Except.noConfusion h'

/-- C2, amended: with the API key present, every failure of the remote
call (network error, non-2xx, malformed payload, timeout — any exception
inside the `try`) makes `get_walking_distance_matrix` return the haversine
fallback matrix with no exception surfacing; with the key missing, a
`ValueError` surfaces to the caller instead. -/
theorem C2_amended (coordinates : List (ℚ × ℚ)) (msg : String)
    (remote : RemoteOutcome) :
    get_walking_distance_matrix true (.err msg) coordinates
      = .ok (haversineMatrix coordinates)
    ∧ get_walking_distance_matrix false remote coordinates
      = .error "OpenRouteService API key not found in environment variables" := by
  exact ⟨rfl, rfl⟩

/-- C4: an unparsable payload, or a payload without the `visits` key and
without the `coordinates` key of the legacy shape, produces the
descriptive `"Route optimization failed: ..."` string — never a success
payload, and no raw exception crosses the engine boundary (the embedding
is total: every outcome is a `success` or a `failure` string). -/
theorem C4_malformed_input_fails (apiKeyPresent : Bool)
    (remote : RemoteOutcome) (solver : Solver) :
    (∀ msg, optimize_dog_walking_route (.malformed msg) apiKeyPresent remote solver
        = .failure ("Route optimization failed: " ++ msg))
    ∧ (∀ f : LegacyFields, f.coordinates = none →
        optimize_dog_walking_route (.legacyFmt f) apiKeyPresent remote solver
          = .failure "Route optimization failed: 'coordinates'") := by
  constructor
  · intro msg
    simp only [optimize_dog_walking_route, parseStops]
  · intro f hf
    simp only [optimize_dog_walking_route, parseStops, hf]
    rfl

theorem C4_malformed_input_fails_witness :
    optimize_dog_walking_route (.malformed "Expecting value") true (.ok [[0]])
        (fun _ => none)
      = .failure "Route optimization failed: Expecting value"
    ∧ optimize_dog_walking_route (.legacyFmt {}) true (.ok [[0]])
        (fun _ => none)
      = .failure "Route optimization failed: 'coordinates'" :=
  ⟨(C4_malformed_input_fails true (.ok [[0]]) (fun _ => none)).1 "Expecting value",
   (C4_malformed_input_fails true (.ok [[0]]) (fun _ => none)).2 {} rfl⟩

/-- C7: when the solver finds no feasible tour (the solve oracle answers
`none`, as under unsatisfiable time windows), the engine returns the
explicit `"No solution found"` failure string — not a success payload,
with no retry (the embedding consults the solver once) and no raised
error (the embedding is total). -/
theorem C7_infeasible_solve_fails {input : RouteData} {apiKeyPresent : Bool}
    {remote : RemoteOutcome} {solver : Solver} {stops : Stops}
    {matrix : List (List ℤ)}
    (hp : parseStops input = .ok stops)
    (hm : get_walking_distance_matrix apiKeyPresent remote stops.coordinates
        = .ok matrix)
    (hs : solver (buildSolveModel stops matrix) = none) :
    optimize_dog_walking_route input apiKeyPresent remote solver
      = .failure "No solution found" := by
  simp only [optimize_dog_walking_route, hp, hm, hs]

theorem C7_infeasible_solve_fails_witness :
    optimize_dog_walking_route
        (.visitsFmt [{ pet_name := some "Max", coordinates := some (0, 0),
                       time_window := some [9, 8] }])
        true (.ok [[0]]) (fun _ => none)
      = .failure "No solution found" :=
  C7_infeasible_solve_fails rfl rfl rfl

/-- C1, counterexample: a run whose distance matrix comes from the
geodesic fallback (remote call fails with the key present) still reports
`uses_real_streets = true`, because line 237 hard-codes `True`; the claim
that the flag is `false` on the fallback path is refuted. -/
theorem C1_counterexample :
    engineUsesRealStreets
        (optimize_dog_walking_route
          (.visitsFmt [{ pet_name := some "Max", coordinates := some (0, 0),
                         duration := some 30 }])
          true (.err "connection error") (fun _ => some [0]))
      = some true := by
  rfl

/-- C1, amended: every successful result reports `uses_real_streets =
true`, whichever path produced the distance matrix — the fallback is
never surfaced in the output flag. -/
theorem C1_flag_always_true {input : RouteData} {apiKeyPresent : Bool}
    {remote : RemoteOutcome} {solver : Solver} {r : RouteResult}
    (h : optimize_dog_walking_route input apiKeyPresent remote solver
        = .success r) :
    r.uses_real_streets = true := by
  unfold optimize_dog_walking_route at h
  split at h
  · simp at h
  · split at h
    · simp at h
    · split at h
      · simp at h
      · injection h with h
        rw [← h]
        rfl

theorem C1_flag_always_true_witness :
    (assemble ⟨[(0, 0)], [30], [[]], ["Max"], ["Unknown"]⟩ [[0]]
        [0]).uses_real_streets = true :=
  C1_flag_always_true
    (@optimize_eq_success
      (.visitsFmt [{ pet_name := some "Max", coordinates := some (0, 0),
                     duration := some 30 }])
      true (.err "connection error") (fun _ => some [0]) _ _ [0]
      rfl rfl rfl)

/-- C5: a successful solve over n stops yields a closed tour of length
n + 1 that starts and ends at the depot 0 and whose first n elements are
a permutation of `{0, ..., n-1}`.  The hypotheses `h0` and `hperm` are the
OR-Tools contract for the extracted successor chain: it starts at the
depot node and visits every node exactly once. -/
theorem C5_tour_shape (stops : Stops) (matrix : List (List ℤ))
    (visitOrder : List ℕ) (n : ℕ)
    (hn : stops.coordinates.length = n) (hpos : 0 < n)
    (h0 : visitOrder.head? = some 0)
    (hperm : visitOrder.Perm (List.range n)) :
    (assemble stops matrix visitOrder).optimized_sequence.length = n + 1
    ∧ (assemble stops matrix visitOrder).optimized_sequence.head? = some 0
    ∧ (assemble stops matrix visitOrder).optimized_sequence.getLast? = some 0
    ∧ ((assemble stops matrix visitOrder).optimized_sequence.take n).Perm
        (List.range n) := by
  have hlen : visitOrder.length = n := hperm.length_eq.trans (List.length_range n)
  have hseq : (assemble stops matrix visitOrder).optimized_sequence
      = visitOrder ++ [0] := by
    show visitOrder ++ [visitOrder.headD 0] = visitOrder ++ [0]
    rw [headD_eq_of_head? h0]
  refine ⟨?_, ?_, ?_, ?_⟩
  · simp [hseq, hlen]
  · rw [hseq]
    cases visitOrder with
    | nil => simp at h0
    | cons a t => simpa using h0
  · simp [hseq]
  · have htake : (visitOrder ++ [0]).take n = visitOrder := by
      rw [← hlen]
      exact List.take_left _ _
    rw [hseq, htake]
    exact hperm

theorem C5_tour_shape_witness :
    (assemble ⟨[(0, 0), (1, 0), (2, 0)], [30, 20, 25], [[], [], []],
          ["Max", "Bella", "Charlie"], ["Unknown", "Unknown", "Unknown"]⟩
        [[0, 1000, 2000], [1000, 0, 1500], [2000, 1500, 0]]
        [0, 2, 1]).optimized_sequence.length = 3 + 1
    ∧ (assemble ⟨[(0, 0), (1, 0), (2, 0)], [30, 20, 25], [[], [], []],
          ["Max", "Bella", "Charlie"], ["Unknown", "Unknown", "Unknown"]⟩
        [[0, 1000, 2000], [1000, 0, 1500], [2000, 1500, 0]]
        [0, 2, 1]).optimized_sequence.head? = some 0
    ∧ (assemble ⟨[(0, 0), (1, 0), (2, 0)], [30, 20, 25], [[], [], []],
          ["Max", "Bella", "Charlie"], ["Unknown", "Unknown", "Unknown"]⟩
        [[0, 1000, 2000], [1000, 0, 1500], [2000, 1500, 0]]
        [0, 2, 1]).optimized_sequence.getLast? = some 0
    ∧ ((assemble ⟨[(0, 0), (1, 0), (2, 0)], [30, 20, 25], [[], [], []],
          ["Max", "Bella", "Charlie"], ["Unknown", "Unknown", "Unknown"]⟩
        [[0, 1000, 2000], [1000, 0, 1500], [2000, 1500, 0]]
        [0, 2, 1]).optimized_sequence.take 3).Perm (List.range 3) :=
  C5_tour_shape _ _ [0, 2, 1] 3 rfl (by decide) rfl (by decide)

/-- C6: the reported `total_distance_meters` is the sum of
`matrix[tour[i]][tour[i+1]]` over all consecutive pairs of the returned
closed tour, including the final return-to-depot leg.  `h0` is the
solver contract that the extracted chain starts at the depot node 0. -/
theorem C6_total_distance (stops : Stops) (matrix : List (List ℤ))
    (visitOrder : List ℕ) (h0 : visitOrder.head? = some 0) :
    (assemble stops matrix visitOrder).total_distance_meters
      = tourCost matrix (assemble stops matrix visitOrder).optimized_sequence := by
  show tourCost matrix (visitOrder ++ [0])
      = tourCost matrix (visitOrder ++ [visitOrder.headD 0])
  rw [headD_eq_of_head? h0]

theorem C6_total_distance_witness :
    (assemble ⟨[(0, 0), (1, 0)], [30, 20], [[], []], ["Max", "Bella"],
          ["Unknown", "Unknown"]⟩
        [[0, 5], [7, 0]] [0, 1]).total_distance_meters
      = tourCost [[0, 5], [7, 0]]
          (assemble ⟨[(0, 0), (1, 0)], [30, 20], [[], []], ["Max", "Bella"],
              ["Unknown", "Unknown"]⟩
            [[0, 5], [7, 0]] [0, 1]).optimized_sequence :=
  C6_total_distance _ _ [0, 1] rfl

/-- C9: `walking_time_minutes` is `total_distance_meters / 83.33` rounded
to 1 decimal place, and `estimated_time_hours` is `(unrounded walking
minutes + sum of stop durations) / 60` rounded to 2 decimal places — the
hours figure is fed the unrounded minutes. -/
theorem C9_timing (stops : Stops) (matrix : List (List ℤ))
    (visitOrder : List ℕ) :
    (assemble stops matrix visitOrder).walking_time_minutes
      = pyRound (((assemble stops matrix visitOrder).total_distance_meters : ℚ)
          / walkingSpeed) 1
    ∧ (assemble stops matrix visitOrder).estimated_time_hours
      = pyRound
          ((((assemble stops matrix visitOrder).total_distance_meters : ℚ)
              / walkingSpeed + (stops.durations.sum : ℚ)) / 60) 2 :=
  ⟨rfl, rfl⟩

/-- C10: a stop whose address is absent (defaulted to `"Unknown"` at
line 123) or is the literal string `"Unknown"` is emitted with an
empty-string address in both `visit_order` and `locations_for_map`, so
the two inputs are indistinguishable in the output. -/
theorem C10_unknown_address (vs : List Visit) (stops : Stops)
    (hp : parseStops (.visitsFmt vs) = .ok stops)
    (i : ℕ) (v : Visit) (hv : vs[i]? = some v)
    (haddr : v.address = none ∨ v.address = some "Unknown")
    (matrix : List (List ℤ)) (visitOrder : List ℕ) (p : ℕ)
    (hpos : visitOrder[p]? = some i) :
    ((assemble stops matrix visitOrder).visit_order[p]?).map
        VisitDetail.address = some ""
    ∧ ((assemble stops matrix visitOrder).locations_for_map[p]?).map
        MapLocation.address = some "" := by
  simp only [parseStops, Except.ok.injEq] at hp
  have haddrs : stops.addresses[i]? = some "Unknown" := by
    rw [← hp]
    simp only [List.getElem?_map, hv, Option.map_some]
    rcases haddr with h | h <;> simp [h]
  have hgetD : stops.addresses.getD i "" = "Unknown" := by
    simp [List.getD, haddrs]
  have hdrop : ((assemble stops matrix visitOrder).optimized_sequence).dropLast
      = visitOrder := by
    show (visitOrder ++ [visitOrder.headD 0]).dropLast = visitOrder
    simp
  have hva : (visitDetailAt stops i).address = "" := by
    show displayAddress (stops.addresses.getD i "") = ""
    rw [hgetD]
    simp [displayAddress]
  have hma : (mapLocationAt stops i).address = "" := by
    show displayAddress (stops.addresses.getD i "") = ""
    rw [hgetD]
    simp [displayAddress]
  constructor
  · show (((assemble stops matrix visitOrder).optimized_sequence).dropLast.map
        (visitDetailAt stops))[p]?.map VisitDetail.address = some ""
    rw [hdrop]
    simp [List.getElem?_map, hpos, hva]
  · show (((assemble stops matrix visitOrder).optimized_sequence).dropLast.map
        (mapLocationAt stops))[p]?.map MapLocation.address = some ""
    rw [hdrop]
    simp [List.getElem?_map, hpos, hma]

theorem C10_unknown_address_witness :
    ((assemble ⟨[(0, 0)], [30], [[]], ["Max"], ["Unknown"]⟩ [[0]]
        [0]).visit_order[0]?).map VisitDetail.address = some ""
    ∧ ((assemble ⟨[(0, 0)], [30], [[]], ["Max"], ["Unknown"]⟩ [[0]]
        [0]).locations_for_map[0]?).map MapLocation.address = some "" :=
  C10_unknown_address
    [{ pet_name := some "Max", coordinates := some (0, 0), address := none }]
    _ rfl 0 _ rfl (Or.inl rfl) [[0]] [0] 0 rfl

/-- Every two-element window at position `i` of the enumerated list
contributes its converted bound to `windowBounds`. -/
lemma mem_windowBounds (k : ℕ) (ws : List (List ℚ)) (i : ℕ) (s e : ℚ)
    (h : ws[i]? = some [s, e]) :
    (k + i, pyIntQ (s * 60 * 60), pyIntQ (e * 60 * 60)) ∈ windowBounds k ws := by
  induction ws generalizing k i with
  | nil => simp at h
  | cons w ws ih =>
    cases i with
    | zero =>
      simp only [List.getElem?_cons_zero, Option.some.injEq] at h
      subst h
      simp [windowBounds]
    | succ i =>
      simp only [List.getElem?_cons_succ] at h
      have hmem := ih (k + 1) i h
      have harith : k + 1 + i = k + (i + 1) := by omega
      rw [harith] at hmem
      simp only [windowBounds, List.mem_append]
      exact Or.inr hmem

/-- C3, counterexample: in the visits format every visit contributes an
entry (its `time_window` default `[]`) to the `time_windows` list, so
`if time_windows:` is truthy as soon as one visit exists — here a single
visit with `time_window := none` (no declared window) still gets the time
dimension imposed, refuting "imposed exactly when some stop declares a
time window". -/
theorem C3_counterexample :
    (parseStops (.visitsFmt
        [{ pet_name := some "Max", coordinates := some (0, 0),
           time_window := none }])).map
      (fun stops => (buildSolveModel stops [[0]]).timeDimension.isSome)
    = .ok true := by
  rfl

/-- C3, amended: the cumulative time dimension (slack 1800 s, horizon
43200 s) is imposed exactly when the parsed `time_windows` list is
non-empty — in the visits format that is whenever at least one visit
exists, even if no visit declares a window — and each entry of length
exactly 2 at stop index i contributes the hard bound
`[int(start·3600), int(end·3600)]` on the cumulative time at index i. -/
theorem C3_time_dimension (stops : Stops) (matrix : List (List ℤ)) :
    ((buildSolveModel stops matrix).timeDimension.isSome
        ↔ stops.time_windows ≠ [])
    ∧ ∀ td, (buildSolveModel stops matrix).timeDimension = some td →
        td.slack = 1800 ∧ td.horizon = 43200
        ∧ ∀ i s e, stops.time_windows[i]? = some [s, e] →
            (i, pyIntQ (s * 3600), pyIntQ (e * 3600)) ∈ td.bounds := by
  constructor
  · by_cases h : stops.time_windows = [] <;>
      simp [buildSolveModel, List.isEmpty_iff, h]
  · intro td htd
    by_cases h : stops.time_windows = []
    · simp [buildSolveModel, List.isEmpty_iff, h] at htd
    · simp only [buildSolveModel, List.isEmpty_iff, if_neg h,
        Option.some.injEq] at htd
      subst htd
      refine ⟨by norm_num, by norm_num, ?_⟩
      intro i s e hw
      have hmem := mem_windowBounds 0 stops.time_windows i s e hw
      have h60 : ∀ x : ℚ, x * 60 * 60 = x * 3600 := by
        intro x
        ring
      rw [Nat.zero_add, h60 s, h60 e] at hmem
      exact hmem

theorem C3_time_dimension_witness :
    ((0 : ℕ), pyIntQ ((9 : ℚ) * 3600), pyIntQ ((10 : ℚ) * 3600)) ∈
      (TimeDim.mk 1800 43200
        [((0 : ℕ), pyIntQ ((9 : ℚ) * 60 * 60), pyIntQ ((10 : ℚ) * 60 * 60))]).bounds :=
  ((C3_time_dimension ⟨[(0, 0)], [30], [[9, 10]], ["Pet 1"], ["Unknown"]⟩
      [[0]]).2
    (TimeDim.mk 1800 43200
      [((0 : ℕ), pyIntQ ((9 : ℚ) * 60 * 60), pyIntQ ((10 : ℚ) * 60 * 60))])
    rfl).2.2 0 9 10 rfl

/-- The haversine formula written out (the `let` chain of
`calculate_distance`, beta/zeta-reduced). -/
lemma calculate_distance_eq (c1 c2 : ℚ × ℚ) :
    calculate_distance c1 c2
      = 6371 * (2 * Real.arcsin (Real.sqrt
          (Real.sin ((radians c2.1 - radians c1.1) / 2) ^ 2
            + Real.cos (radians c1.1) * Real.cos (radians c2.1)
              * Real.sin ((radians c2.2 - radians c1.2) / 2) ^ 2))) := rfl

/-- The haversine distance is symmetric in its two coordinates. -/
lemma calculate_distance_comm (c1 c2 : ℚ × ℚ) :
    calculate_distance c1 c2 = calculate_distance c2 c1 := by
  have key : ∀ x y : ℝ, Real.sin ((x - y) / 2) ^ 2 = Real.sin ((y - x) / 2) ^ 2 := by
    intro x y
    rw [show x - y = -(y - x) by ring, neg_div, Real.sin_neg]
    ring
  rw [calculate_distance_eq, calculate_distance_eq,
    key (radians c2.1) (radians c1.1), key (radians c2.2) (radians c1.2),
    mul_comm (Real.cos (radians c1.1)) (Real.cos (radians c2.1))]

/-- Closed form of one entry of the fallback matrix. -/
lemma haversineMatrix_entry (coordinates : List (ℚ × ℚ)) (i j : ℕ)
    (hi : i < coordinates.length) (hj : j < coordinates.length) :
    matrixEntry (haversineMatrix coordinates) i j
      = if i = j then 0
        else pyIntR (calculate_distance (coordinates.getD i (0, 0))
            (coordinates.getD j (0, 0)) * 1000) := by
  simp [matrixEntry, haversineMatrix, List.getD, List.getElem?_map, hi, hj]

/-- C8: the geodesic (haversine) fallback matrix has a zero diagonal and
is symmetric — the code only fills entries with `i != j` over a
zero-initialised matrix, and the haversine formula is symmetric in its
two coordinates. -/
theorem C8_fallback_zero_diag_symm (coordinates : List (ℚ × ℚ)) (i j : ℕ)
    (hi : i < coordinates.length) (hj : j < coordinates.length) :
    matrixEntry (haversineMatrix coordinates) i i = 0
    ∧ matrixEntry (haversineMatrix coordinates) i j
      = matrixEntry (haversineMatrix coordinates) j i := by
  constructor
  · rw [haversineMatrix_entry coordinates i i hi hi]
    simp
  · rw [haversineMatrix_entry coordinates i j hi hj,
      haversineMatrix_entry coordinates j i hj hi]
    by_cases h : i = j
    · simp [h]
    · rw [if_neg h, if_neg (Ne.symm h), calculate_distance_comm]

theorem C8_fallback_zero_diag_symm_witness :
    matrixEntry (haversineMatrix [(0, 0), (45, 90)]) 0 0 = 0
    ∧ matrixEntry (haversineMatrix [(0, 0), (45, 90)]) 0 1
      = matrixEntry (haversineMatrix [(0, 0), (45, 90)]) 1 0 :=
  C8_fallback_zero_diag_symm [(0, 0), (45, 90)] 0 1 (by decide) (by decide)

end DogWalker
